import Mathlib

/-!
Shallow embedding of the tenant connection cache/lifecycle manager of
`packages/nestjs-multitenant-core/src/services/tenant-connection.service.ts`
(class `TenantConnectionService`), together with the parts of
`exceptions/tenant.exceptions.ts` and `interfaces/tenant-config.interface.ts`
it uses.

Modelling decisions (all read off the TypeScript source):
* `connectionCache : Map<string, any>` and `connectionTimers : Map<string,
  NodeJS.Timeout>` become association lists with JS `Map` semantics
  (`set` overwrites in place, `delete` removes, insertion order kept).
* Backend handles are opaque: each connector invocation that succeeds yields a
  fresh handle, numbered by the running count of connector invocations.
* `setTimeout` produces a timer id; an armed timer stays armed until it either
  fires or is passed to `clearTimeout`.  The `connectionTimers` map is only the
  service's bookkeeping of timer ids; the armed set is the runtime's.
  Crucially, `closeConnection` in the source deletes the bookkeeping entry but
  never calls `clearTimeout`, and the model keeps that distinction.
* The collaborators (central-database tenant lookup, TypeORM/Mongoose connect
  and close calls) are the environment: a directory function that can return a
  row, no row, or throw, a per-invocation connector outcome, and a per-handle
  close outcome.  `getTenantInfo` catches directory errors and returns `null`;
  `createTenantConnection` catches connector errors and rethrows them wrapped
  in `TenantConnectionException`; `closeConnection` catches close errors and
  only logs them — exactly as in the source.
* Each `async` method is given a sequential (run-to-completion) semantics; for
  the concurrency claim a separate small-step machine interleaves in-flight
  `getTenantConnection` calls at their two `await` points.
-/

/-- `TenancyDriver` from `tenant-config.interface.ts` is a string enum
(`mysql` / `postgresql` / `mongodb`); the service's `switch` has a `default`
branch, so the model keeps the driver as a raw string. -/
abbrev TenancyDriver := String

/-- The fields of `TenantConfig` that `TenantConnectionService` reads. -/
structure TenantConfig where
  driver : TenancyDriver
  cacheConnections : Bool
  idleTimeout : Nat
  deriving Repr

/-- The fields of `TenantConnectionInfo` that drive the service's control flow
(`id` for error payloads, `isActive` for the activity gate); the connection
parameters are opaque to the cache and are carried by the connector outcome. -/
structure TenantConnectionInfo where
  id : String
  isActive : Bool
  deriving DecidableEq, Repr

/-- The exception taxonomy of `tenant.exceptions.ts` restricted to the
constructors reachable from the connection service, plus
`UnsupportedDatabaseDriverException` (declared there but, as the proofs below
show, never thrown by `createTenantConnection`).  `tenantConnection` carries
`originalError?.message` as its `cause`. -/
inductive TenantError where
  | tenantNotFound (tenantId : String)
  | tenantInactive (tenantId : String)
  | tenantConnection (tenantId : String) (cause : String)
  | unsupportedDatabaseDriver (driver : String)
  deriving DecidableEq, Repr

/-- `TenantContext` from `tenant-config.interface.ts`: id, metadata snapshot,
handle. -/
structure TenantContext where
  tenantId : String
  tenantInfo : TenantConnectionInfo
  connection : Nat
  deriving DecidableEq, Repr

/-- Result of the central-database lookup `repository.findOne` inside
`getTenantInfo`: a row, no row, or a thrown error. -/
inductive DirOutcome where
  | found (info : TenantConnectionInfo)
  | empty
  | failure (msg : String)
  deriving DecidableEq, Repr

/-- The collaborators and configuration, fixed for the duration of one call:
the tenant directory, the connector outcome for the k-th connector invocation
(`none` = a fresh handle, `some msg` = the driver library threw `msg`), and
whether closing handle `h` throws. -/
structure Env where
  cfg : TenantConfig
  dir : String → DirOutcome
  connectorFails : Nat → Option String
  closeFails : Nat → Bool

/-! ### JS `Map` semantics on association lists -/

/-- `Map.get` / `Map.has`. -/
def mapGet (m : List (String × Nat)) (k : String) : Option Nat :=
  match m with
  | [] => none
  | (k', v) :: rest => if k' = k then some v else mapGet rest k

/-- `Map.set`: overwrite in place if present, else append. -/
def mapSet (m : List (String × Nat)) (k : String) (v : Nat) : List (String × Nat) :=
  match m with
  | [] => [(k, v)]
  | (k', v') :: rest => if k' = k then (k, v) :: rest else (k', v') :: mapSet rest k v

/-- `Map.delete`. -/
def mapDelete (m : List (String × Nat)) (k : String) : List (String × Nat) :=
  m.filter (fun p => p.1 ≠ k)

/-- `Array.from(map.keys())`. -/
def mapKeys (m : List (String × Nat)) : List String :=
  m.map (·.1)

/-! ### Service state -/

/-- The mutable state of one `TenantConnectionService` instance, plus the
instrumentation the spec's observable properties talk about:
`dirCalls` counts directory lookups, `connectorCalls` counts backend connector
invocations (and numbers the handles), `closeCalls` records each handle whose
`destroy`/`close` was invoked, in order.  `armedTimers` is the set of
`setTimeout` callbacks that are pending in the runtime (timer id, tenant id);
`nextTimerId` numbers the timers. -/
structure ServiceState where
  connectionCache : List (String × Nat) := []
  connectionTimers : List (String × Nat) := []
  armedTimers : List (Nat × String) := []
  nextTimerId : Nat := 0
  dirCalls : Nat := 0
  connectorCalls : Nat := 0
  closeCalls : List Nat := []
  deriving Repr

/-- The freshly constructed service: both maps empty, nothing armed. -/
def initState : ServiceState := {}

/-- `clearTimeout(t)`: the timer is no longer pending.  Clearing an already
fired or cleared timer is a no-op. -/
def armedRemove (a : List (Nat × String)) (t : Nat) : List (Nat × String) :=
  a.filter (fun p => p.1 ≠ t)

/-- `private async getTenantInfo(tenantId)`: queries the central connection's
`tenants` repository; a thrown error is caught, logged, and turned into
`null`. -/
def getTenantInfo (env : Env) (s : ServiceState) (tenantId : String) :
    Option TenantConnectionInfo × ServiceState :=
  let s := { s with dirCalls := s.dirCalls + 1 }
  match env.dir tenantId with
  | .found info => (some info, s)
  | .empty => (none, s)
  | .failure _ => (none, s)

/-- `private setConnectionTimer(tenantId)`: `setTimeout` arms a fresh timer
whose callback is `closeConnection(tenantId)`, and `connectionTimers.set`
records its id. -/
def setConnectionTimer (s : ServiceState) (tenantId : String) : ServiceState :=
  { s with
    armedTimers := s.armedTimers ++ [(s.nextTimerId, tenantId)]
    connectionTimers := mapSet s.connectionTimers tenantId s.nextTimerId
    nextTimerId := s.nextTimerId + 1 }

/-- `private resetConnectionTimer(tenantId)`: `clearTimeout` on the recorded
timer, if any, then arm a new one. -/
def resetConnectionTimer (s : ServiceState) (tenantId : String) : ServiceState :=
  let s :=
    match mapGet s.connectionTimers tenantId with
    | some t => { s with armedTimers := armedRemove s.armedTimers t }
    | none => s
  setConnectionTimer s tenantId

/-- `private async createTenantConnection(tenantInfo)`: dispatch on the
configured driver; `mysql`/`postgresql` and `mongodb` invoke the backend
connector (numbering the handle), any other driver throws a plain
`Error("Unsupported driver: ...")`.  The surrounding `try`/`catch` wraps
whatever was thrown into `TenantConnectionException(tenantInfo.id, error)`. -/
def createTenantConnection (env : Env) (s : ServiceState) (info : TenantConnectionInfo) :
    Except TenantError Nat × ServiceState :=
  if env.cfg.driver = "mysql" ∨ env.cfg.driver = "postgresql" ∨ env.cfg.driver = "mongodb" then
    let handle := s.connectorCalls
    let s := { s with connectorCalls := s.connectorCalls + 1 }
    match env.connectorFails handle with
    | none => (.ok handle, s)
    | some msg => (.error (.tenantConnection info.id msg), s)
  else
    (.error (.tenantConnection info.id ("Unsupported driver: " ++ env.cfg.driver)), s)

/-- `async getTenantConnection(tenantId)`, sequential semantics: cache check
(hit resets the timer and returns the cached handle), else directory lookup
(`TenantNotFoundException` on `null`, `TenantInactiveException` on inactive),
else connector; on success the handle is cached and a timer armed iff
`cacheConnections` is set. -/
def getTenantConnection (env : Env) (s : ServiceState) (tenantId : String) :
    Except TenantError Nat × ServiceState :=
  match env.cfg.cacheConnections, mapGet s.connectionCache tenantId with
  | true, some handle =>
    (.ok handle, resetConnectionTimer s tenantId)
  | _, _ =>
    match getTenantInfo env s tenantId with
    | (none, s) => (.error (.tenantNotFound tenantId), s)
    | (some info, s) =>
      if info.isActive = false then
        (.error (.tenantInactive tenantId), s)
      else
        match createTenantConnection env s info with
        | (.error e, s) => (.error e, s)
        | (.ok handle, s) =>
          let s :=
            if env.cfg.cacheConnections then
              setConnectionTimer { s with connectionCache := mapSet s.connectionCache tenantId handle } tenantId
            else s
          (.ok handle, s)

/-- `async getTenantContext(tenantId)`: directory lookup
(`TenantNotFoundException` on `null`), then `getTenantConnection`, then the
combined context. -/
def getTenantContext (env : Env) (s : ServiceState) (tenantId : String) :
    Except TenantError TenantContext × ServiceState :=
  match getTenantInfo env s tenantId with
  | (none, s) => (.error (.tenantNotFound tenantId), s)
  | (some info, s) =>
    match getTenantConnection env s tenantId with
    | (.error e, s) => (.error e, s)
    | (.ok handle, s) =>
      (.ok { tenantId := tenantId, tenantInfo := info, connection := handle }, s)

/-- `private async closeConnection(tenantId)`: no-op when the cache has no
entry; otherwise invoke the handle's `destroy`/`close` and, still inside the
`try`, delete the cache and timer-map entries.  A thrown close error is caught
after the close call, so the deletes are skipped; and no `clearTimeout` is
ever issued, so `armedTimers` is untouched on every path. -/
def closeConnection (env : Env) (s : ServiceState) (tenantId : String) : ServiceState :=
  match mapGet s.connectionCache tenantId with
  | none => s
  | some handle =>
    let s := { s with closeCalls := s.closeCalls ++ [handle] }
    if env.closeFails handle then s
    else
      { s with
        connectionCache := mapDelete s.connectionCache tenantId
        connectionTimers := mapDelete s.connectionTimers tenantId }

/-- `async closeAllConnections()`: `closeConnection` over a snapshot of the
cache's keys (`Array.from(this.connectionCache.keys())`). -/
def closeAllConnections (env : Env) (s : ServiceState) : ServiceState :=
  (mapKeys s.connectionCache).foldl (fun acc tenantId => closeConnection env acc tenantId) s

/-- `getConnectionStats()`: size and keys of the cache. -/
def getConnectionStats (s : ServiceState) : Nat × List String :=
  (s.connectionCache.length, mapKeys s.connectionCache)

/-- An armed timer elapsing: the runtime removes it from the pending set and
runs its callback `closeConnection(tenantId)`.  A timer that is not armed
(already cleared or fired) cannot fire. -/
def fireTimer (env : Env) (s : ServiceState) (t : Nat) : ServiceState :=
  match (s.armedTimers.find? (fun p => p.1 = t)).map (·.2) with
  | none => s
  | some tenantId => closeConnection env { s with armedTimers := armedRemove s.armedTimers t } tenantId

/-- The armed timers whose callback targets `tenantId`. -/
def armedFor (s : ServiceState) (tenantId : String) : List (Nat × String) :=
  s.armedTimers.filter (fun p => p.2 = tenantId)

/-! ### Interleaving semantics for concurrent `getTenantConnection` calls

`getTenantConnection` is `async` with two suspension points, `await
this.getTenantInfo(...)` and `await this.createTenantConnection(...)`; the
code between suspension points runs atomically on the event loop.  An
in-flight call is a thread whose phase records which suspension it is parked
at (with the value the awaited expression resolved to); a scheduler step picks
a thread and runs its next synchronous segment. -/

/-- Where an in-flight `getTenantConnection(tenantId)` call stands. -/
inductive AcqPhase where
  | start
  | gotDir (r : Option TenantConnectionInfo)
  | gotConn (r : Except TenantError Nat)
  | done (r : Except TenantError Nat)
  deriving Repr

/-- One in-flight `getTenantConnection` call. -/
structure AcqThread where
  tenantId : String
  phase : AcqPhase
  deriving Repr

/-- Run the next synchronous segment of one in-flight call.  The segments
mirror `getTenantConnection` exactly: (1) cache check, then either the
complete synchronous hit path or the directory lookup up to its suspension;
(2) on resume, the `null`/`isActive` checks and, if both pass, the connector
dispatch of `createTenantConnection` up to its suspension; (3) on resume, the
conditional `connectionCache.set` + `setConnectionTimer` and the return. -/
def stepThread (env : Env) (s : ServiceState) (th : AcqThread) : AcqThread × ServiceState :=
  match th.phase with
  | .start =>
    match env.cfg.cacheConnections, mapGet s.connectionCache th.tenantId with
    | true, some handle =>
      ({ th with phase := .done (.ok handle) }, resetConnectionTimer s th.tenantId)
    | _, _ =>
      let r := getTenantInfo env s th.tenantId
      ({ th with phase := .gotDir r.1 }, r.2)
  | .gotDir none => ({ th with phase := .done (.error (.tenantNotFound th.tenantId)) }, s)
  | .gotDir (some info) =>
    if info.isActive = false then
      ({ th with phase := .done (.error (.tenantInactive th.tenantId)) }, s)
    else
      let r := createTenantConnection env s info
      ({ th with phase := .gotConn r.1 }, r.2)
  | .gotConn (.error e) => ({ th with phase := .done (.error e) }, s)
  | .gotConn (.ok handle) =>
    let s :=
      if env.cfg.cacheConnections then
        setConnectionTimer { s with connectionCache := mapSet s.connectionCache th.tenantId handle } th.tenantId
      else s
    ({ th with phase := .done (.ok handle) }, s)
  | .done _ => (th, s)

/-- Run a schedule: each entry picks the thread (by index) whose next segment
the event loop runs; an out-of-range index is skipped. -/
def runSched (env : Env) : List Nat → List AcqThread × ServiceState → List AcqThread × ServiceState
  | [], ts => ts
  | i :: rest, (ths, s) =>
    match ths[i]? with
    | none => runSched env rest (ths, s)
    | some th =>
      let (th', s') := stepThread env s th
      runSched env rest (ths.set i th', s')

/-! ### Concrete environments and traces used by the scenarios -/

/-- A directory holding one active tenant `"t"`. -/
def dirActive : String → DirOutcome := fun tenantId =>
  if tenantId = "t" then .found { id := "t", isActive := true } else .empty

/-- A directory holding `"t"` with `isActive = false`. -/
def dirInactive : String → DirOutcome := fun tenantId =>
  if tenantId = "t" then .found { id := "t", isActive := false } else .empty

/-- Caching enabled, `mysql` driver, every connector invocation succeeds,
every close succeeds. -/
def envCached : Env :=
  { cfg := { driver := "mysql", cacheConnections := true, idleTimeout := 300000 }
    dir := dirActive
    connectorFails := fun _ => none
    closeFails := fun _ => false }

/-- `envCached` but the directory now reports `"t"` as inactive (the tenant
was deactivated in the central database after being cached). -/
def envCachedInactive : Env :=
  { envCached with dir := dirInactive }

/-- Two concurrent cold `getTenantConnection("t")` calls, interleaved so that
each one's cache check runs before either store: segments 1,1,2,2,3,3. -/
def coldRace : List AcqThread × ServiceState :=
  runSched envCached [0, 1, 0, 1, 0, 1]
    ([⟨"t", .start⟩, ⟨"t", .start⟩], initState)

/-- `acquire "t"`, then `shutdown`, then `acquire "t"` again, then a third
`acquire "t"` that hits the cache and resets the timer. -/
def staleTimerTrace : ServiceState :=
  let s1 := (getTenantConnection envCached initState "t").2
  let s2 := closeAllConnections envCached s1
  let s3 := (getTenantConnection envCached s2 "t").2
  (getTenantConnection envCached s3 "t").2

/-- The state after one successful cached `acquire "t"`: one entry, one armed
timer. -/
def oneEntryState : ServiceState := (getTenantConnection envCached initState "t").2

/-- `envCached` with a connector that throws `"boom"` on its first invocation
and succeeds afterwards (the backend becomes reachable between the calls). -/
def envRetry : Env :=
  { envCached with connectorFails := fun k => if k = 0 then some "boom" else none }

/-- `envCached` with every handle's `destroy`/`close` throwing. -/
def envCloseFail : Env :=
  { envCached with closeFails := fun _ => true }

/-- A directory holding three active tenants `"t1"`, `"t2"`, `"t3"`. -/
def dirThree : String → DirOutcome := fun tenantId =>
  if tenantId = "t1" ∨ tenantId = "t2" ∨ tenantId = "t3" then
    .found { id := tenantId, isActive := true }
  else .empty

/-- Caching enabled over `dirThree`; the close of handle `1` (the second
connection) throws, the others succeed. -/
def envThree : Env :=
  { envCached with dir := dirThree, closeFails := fun h => h = 1 }

/-- The state after `acquire` on the three distinct keys of `dirThree`. -/
def threeKeyState : ServiceState :=
  let s1 := (getTenantConnection envThree initState "t1").2
  let s2 := (getTenantConnection envThree s1 "t2").2
  (getTenantConnection envThree s2 "t3").2

/-- `acquire` on three distinct keys, then `shutdown`, under `envThree`. -/
def threeKeyShutdown : ServiceState :=
  closeAllConnections envThree threeKeyState

/-- `acquire "t"` then `shutdown`, all closes succeeding. -/
def shutdownTrace : ServiceState :=
  closeAllConnections envCached oneEntryState

/-- `envCached` with the configured driver set to a string outside the
`TenancyDriver` enum. -/
def envBadDriver : Env :=
  { envCached with cfg := { envCached.cfg with driver := "sqlite" } }

/-- Caching disabled, active tenant `"t"`, connector and closes always
succeed. -/
def envNoCache : Env :=
  { envCached with cfg := { envCached.cfg with cacheConnections := false } }

/-- `envCached` with a central database whose every lookup throws. -/
def envDirThrows : Env :=
  { envCached with dir := fun _ => .failure "central db down" }

/-! ### Association-list lemmas -/

theorem mapGet_cons_self (k : String) (v : Nat) (m : List (String × Nat)) :
    mapGet ((k, v) :: m) k = some v := by
  simp [mapGet]

theorem mem_mapKeys_mapSet (m : List (String × Nat)) (k : String) (v : Nat) (x : String) :
    x ∈ mapKeys (mapSet m k v) ↔ x ∈ mapKeys m ∨ x = k := by
  induction m with
  | nil => simp [mapSet, mapKeys]
  | cons p rest ih =>
    obtain ⟨k', v'⟩ := p
    by_cases hk : k' = k
    · subst hk
      simp [mapSet, mapKeys]
      tauto
    · simp [mapSet, hk, mapKeys] at ih ⊢
      tauto

theorem mapKeys_cons (a : String) (b : Nat) (l : List (String × Nat)) :
    mapKeys ((a, b) :: l) = a :: mapKeys l := rfl

theorem mapKeys_mapSet (m : List (String × Nat)) (k : String) (v : Nat) :
    mapKeys (mapSet m k v) = if k ∈ mapKeys m then mapKeys m else mapKeys m ++ [k] := by
  induction m with
  | nil => simp [mapSet, mapKeys]
  | cons p rest ih =>
    obtain ⟨k', v'⟩ := p
    by_cases hk : k' = k
    · subst hk
      simp [mapSet, mapKeys_cons]
    · have hstep : mapSet ((k', v') :: rest) k v = (k', v') :: mapSet rest k v := by
        simp [mapSet, hk]
      have hmemc : (k ∈ mapKeys ((k', v') :: rest)) ↔ k ∈ mapKeys rest := by
        rw [mapKeys_cons]
        simp only [List.mem_cons]
        exact ⟨fun h1 => h1.elim (fun h2 => absurd h2.symm hk) id, fun h1 => Or.inr h1⟩
      by_cases hmem : k ∈ mapKeys rest
      · rw [hstep, mapKeys_cons, ih, if_pos hmem, if_pos (hmemc.mpr hmem), mapKeys_cons]
      · rw [hstep, mapKeys_cons, ih, if_neg hmem, if_neg (fun hx => hmem (hmemc.mp hx)),
          mapKeys_cons, List.cons_append]

theorem nodup_mapKeys_mapSet (m : List (String × Nat)) (k : String) (v : Nat)
    (h : (mapKeys m).Nodup) : (mapKeys (mapSet m k v)).Nodup := by
  rw [mapKeys_mapSet]
  by_cases hmem : k ∈ mapKeys m
  · simpa [hmem] using h
  · simp only [hmem, if_false]
    exact List.Nodup.append h (List.nodup_singleton k) (by simpa using hmem)

/-! ### Effect lemmas on the service operations -/

/-- `getTenantInfo` only increments the directory-call counter, on every
directory outcome. -/
theorem getTenantInfo_snd (env : Env) (s : ServiceState) (tenantId : String) :
    (getTenantInfo env s tenantId).2 = { s with dirCalls := s.dirCalls + 1 } := by
  unfold getTenantInfo
  cases env.dir tenantId <;> rfl

/-- `createTenantConnection` leaves the cache untouched. -/
theorem createTenantConnection_cache (env : Env) (s : ServiceState) (info : TenantConnectionInfo) :
    (createTenantConnection env s info).2.connectionCache = s.connectionCache := by
  unfold createTenantConnection
  split
  · rcases h : env.connectorFails s.connectorCalls with _ | msg <;> simp [h]
  · rfl

/-- `setConnectionTimer` leaves the cache untouched. -/
theorem setConnectionTimer_cache (s : ServiceState) (tenantId : String) :
    (setConnectionTimer s tenantId).connectionCache = s.connectionCache := rfl

/-- `resetConnectionTimer` leaves the cache untouched. -/
theorem resetConnectionTimer_cache (s : ServiceState) (tenantId : String) :
    (resetConnectionTimer s tenantId).connectionCache = s.connectionCache := by
  unfold resetConnectionTimer
  split <;> rfl

/-- One scheduler step either leaves the cache alone or performs the single
`connectionCache.set(tenantId, connection)` of the miss path. -/
theorem stepThread_cache (env : Env) (s : ServiceState) (th : AcqThread) :
    (stepThread env s th).2.connectionCache = s.connectionCache ∨
    ∃ h : Nat, (stepThread env s th).2.connectionCache = mapSet s.connectionCache th.tenantId h := by
  rcases th with ⟨tenantId, phase⟩
  cases phase with
  | start =>
    rcases hc : env.cfg.cacheConnections with _ | _ <;>
      rcases hg : mapGet s.connectionCache tenantId with _ | handle <;>
        simp only [stepThread, hc, hg, getTenantInfo_snd, resetConnectionTimer_cache] <;>
          exact Or.inl trivial
  | gotDir r =>
    rcases r with _ | info
    · exact Or.inl rfl
    · simp only [stepThread]
      split
      · exact Or.inl rfl
      · exact Or.inl (createTenantConnection_cache env s info)
  | gotConn r =>
    rcases r with e | handle
    · exact Or.inl rfl
    · rcases hc : env.cfg.cacheConnections with _ | _ <;>
        simp only [stepThread, hc, if_true, if_false, Bool.false_eq_true, setConnectionTimer_cache]
      · exact Or.inl trivial
      · exact Or.inr ⟨handle, rfl⟩
  | done r => exact Or.inl rfl

/-- Nodup cache keys are preserved by every scheduler step. -/
theorem stepThread_nodup (env : Env) (s : ServiceState) (th : AcqThread)
    (h : (mapKeys s.connectionCache).Nodup) :
    (mapKeys (stepThread env s th).2.connectionCache).Nodup := by
  rcases stepThread_cache env s th with heq | ⟨hd, heq⟩
  · rw [heq]; exact h
  · rw [heq]; exact nodup_mapKeys_mapSet _ _ _ h

/-- Nodup cache keys are preserved by any schedule of concurrent calls. -/
theorem runSched_nodup (env : Env) (sched : List Nat) :
    ∀ (ths : List AcqThread) (s : ServiceState), (mapKeys s.connectionCache).Nodup →
    (mapKeys (runSched env sched (ths, s)).2.connectionCache).Nodup := by
  induction sched with
  | nil => intro ths s h; exact h
  | cons i rest ih =>
    intro ths s h
    unfold runSched
    rcases hi : ths[i]? with _ | th
    · simp only [hi]
      exact ih ths s h
    · simp only [hi]
      exact ih _ _ (stepThread_nodup env s th h)

/-! ### Claim C1 -/

/-- C1, as stated, is false on the code: `getTenantConnection` has no per-key
single-flight, so two concurrent cold `acquire "t"` calls whose cache checks
both run before either store each invoke the backend connector (two
invocations, not one), receive distinct handles `0` and `1`, and only the
last-written handle `1` is the stored entry — caller 0 holds a handle that is
not the stored entry. -/
theorem C1_counterexample :
    coldRace.2.connectorCalls = 2 ∧
    coldRace.1.map AcqThread.phase = [.done (.ok 0), .done (.ok 1)] ∧
    coldRace.2.connectionCache = [("t", 1)] :=
  ⟨rfl, rfl, rfl⟩

/-- C1 amended: the `Map` semantics of `connectionCache.set` do keep at most
one cache entry per key under every interleaving of concurrent `acquire`
calls, and sequentially a second `acquire` for a cached key reuses the single
stored entry without re-invoking the connector; but creation is not
serialized, so concurrent cold calls may each invoke the connector and
receive distinct handles (see the counterexample). -/
theorem C1_at_most_one_entry_per_key :
    (∀ (env : Env) (sched : List Nat) (ths : List AcqThread) (s : ServiceState),
      (mapKeys s.connectionCache).Nodup →
      (mapKeys (runSched env sched (ths, s)).2.connectionCache).Nodup) ∧
    (getTenantConnection envCached initState "t").1 = .ok 0 ∧
    (getTenantConnection envCached initState "t").2.connectorCalls = 1 ∧
    (getTenantConnection envCached oneEntryState "t").1 = .ok 0 ∧
    (getTenantConnection envCached oneEntryState "t").2.connectorCalls = 1 ∧
    (getTenantConnection envCached oneEntryState "t").2.connectionCache = [("t", 0)] :=
  ⟨runSched_nodup, rfl, rfl, rfl, rfl, rfl⟩

/-- Witness for C1: the amended invariant applied to the concrete race of the
counterexample schedule, from the empty cache. -/
theorem C1_at_most_one_entry_per_key_witness :
    (mapKeys (runSched envCached [0, 1, 0, 1, 0, 1]
      ([⟨"t", .start⟩, ⟨"t", .start⟩], initState)).2.connectionCache).Nodup :=
  C1_at_most_one_entry_per_key.1 envCached [0, 1, 0, 1, 0, 1]
    [⟨"t", .start⟩, ⟨"t", .start⟩] initState (by simp [initState, mapKeys])

/-! ### Claim C2 -/

/-- C2: on a cache miss with an active tenant, a connector failure makes
`acquire` fail with `TenantConnectionException` wrapping the thrown cause, and
the whole cache state is untouched (no entry stored, no timer bookkeeping, no
armed timer); the failure is not cached, so a subsequent `acquire` for the
same key invokes the connector again and succeeds when the connector now
succeeds. -/
theorem C2_connector_failure_not_cached (env : Env) (s : ServiceState) (tenantId : String)
    (info : TenantConnectionInfo) (msg : String)
    (hcache : env.cfg.cacheConnections = true)
    (hmiss : mapGet s.connectionCache tenantId = none)
    (hdir : env.dir tenantId = .found info)
    (hact : info.isActive = true)
    (hdrv : env.cfg.driver = "mysql" ∨ env.cfg.driver = "postgresql" ∨ env.cfg.driver = "mongodb")
    (hfail : env.connectorFails s.connectorCalls = some msg)
    (hretry : env.connectorFails (s.connectorCalls + 1) = none) :
    (getTenantConnection env s tenantId).1 = .error (.tenantConnection info.id msg) ∧
    (getTenantConnection env s tenantId).2.connectionCache = s.connectionCache ∧
    (getTenantConnection env s tenantId).2.connectionTimers = s.connectionTimers ∧
    (getTenantConnection env s tenantId).2.armedTimers = s.armedTimers ∧
    (getTenantConnection env s tenantId).2.connectorCalls = s.connectorCalls + 1 ∧
    (getTenantConnection env (getTenantConnection env s tenantId).2 tenantId).1 =
      .ok (s.connectorCalls + 1) ∧
    (getTenantConnection env (getTenantConnection env s tenantId).2 tenantId).2.connectorCalls =
      s.connectorCalls + 2 := by
  have hstep : getTenantConnection env s tenantId =
      (.error (.tenantConnection info.id msg),
        { s with dirCalls := s.dirCalls + 1, connectorCalls := s.connectorCalls + 1 }) := by
    simp only [getTenantConnection, hcache, hmiss, getTenantInfo, hdir, hact,
      createTenantConnection, if_pos hdrv, hfail, Bool.true_eq_false, if_false]
  rw [hstep]
  refine ⟨rfl, rfl, rfl, rfl, rfl, ?_, ?_⟩ <;>
    simp only [getTenantConnection, hcache, hmiss, getTenantInfo, hdir, hact,
      createTenantConnection, if_pos hdrv, hretry, Bool.true_eq_false, if_false, if_true,
      setConnectionTimer]

/-- Witness for C2: connector throws `"boom"` on call 0 and succeeds on call
1, tenant `"t"`, empty initial cache. -/
theorem C2_connector_failure_not_cached_witness :
    (getTenantConnection envRetry initState "t").1 = .error (.tenantConnection "t" "boom") ∧
    (getTenantConnection envRetry initState "t").2.connectionCache = [] ∧
    (getTenantConnection envRetry initState "t").2.connectionTimers = [] ∧
    (getTenantConnection envRetry initState "t").2.armedTimers = [] ∧
    (getTenantConnection envRetry initState "t").2.connectorCalls = 1 ∧
    (getTenantConnection envRetry (getTenantConnection envRetry initState "t").2 "t").1 = .ok 1 ∧
    (getTenantConnection envRetry (getTenantConnection envRetry initState "t").2 "t").2.connectorCalls = 2 :=
  C2_connector_failure_not_cached envRetry initState "t" { id := "t", isActive := true } "boom"
    rfl rfl (by simp [envRetry, envCached, dirActive]) rfl (Or.inl rfl) rfl rfl

/-! ### Claim C3 -/

/-- C3, as stated, is false on the code: when the handle's `destroy`/`close`
throws, the `catch` in `closeConnection` only logs, but the
`connectionCache.delete`/`connectionTimers.delete` calls sit inside the `try`
AFTER the close, so they are skipped — the entry is NOT removed from the
cache's bookkeeping.  Concretely: one cached entry for `"t"` whose close
throws; after `closeConnection "t"` the close was invoked, yet the entry is
still cached and `stats()` still reports it. -/
theorem C3_counterexample :
    (closeConnection envCloseFail oneEntryState "t").closeCalls = [0] ∧
    (closeConnection envCloseFail oneEntryState "t").connectionCache = [("t", 0)] ∧
    getConnectionStats (closeConnection envCloseFail oneEntryState "t") = (1, ["t"]) :=
  ⟨rfl, rfl, rfl⟩

/-- C3 amended: evict never raises (every close error is caught) and is a
no-op when no entry exists; with an entry, close is invoked exactly once, and
on close success the cache and timer-map entries are removed — but on close
failure the error is only logged and the entry REMAINS in the cache's
bookkeeping (only `closeCalls` grows). -/
theorem C3_evict_never_throws (env : Env) (s : ServiceState) (tenantId : String) :
    (mapGet s.connectionCache tenantId = none → closeConnection env s tenantId = s) ∧
    (∀ handle, mapGet s.connectionCache tenantId = some handle →
      env.closeFails handle = false →
      (closeConnection env s tenantId).connectionCache = mapDelete s.connectionCache tenantId ∧
      (closeConnection env s tenantId).connectionTimers = mapDelete s.connectionTimers tenantId ∧
      (closeConnection env s tenantId).closeCalls = s.closeCalls ++ [handle]) ∧
    (∀ handle, mapGet s.connectionCache tenantId = some handle →
      env.closeFails handle = true →
      closeConnection env s tenantId = { s with closeCalls := s.closeCalls ++ [handle] }) := by
  refine ⟨fun hnone => ?_, fun handle hsome hok => ?_, fun handle hsome hbad => ?_⟩
  · simp only [closeConnection, hnone]
  · simp only [closeConnection, hsome, hok, Bool.false_eq_true, if_false]
    exact ⟨trivial, trivial, trivial⟩
  · simp only [closeConnection, hsome, hbad, if_true]

/-- Witness for C3: the three branches at concrete states — empty cache,
cached entry with a succeeding close, cached entry with a throwing close. -/
theorem C3_evict_never_throws_witness :
    closeConnection envCached initState "t" = initState ∧
    (closeConnection envCached oneEntryState "t").connectionCache =
      mapDelete oneEntryState.connectionCache "t" ∧
    closeConnection envCloseFail oneEntryState "t" =
      { oneEntryState with closeCalls := oneEntryState.closeCalls ++ [0] } :=
  ⟨(C3_evict_never_throws envCached initState "t").1 rfl,
   ((C3_evict_never_throws envCached oneEntryState "t").2.1 0 rfl rfl).1,
   (C3_evict_never_throws envCloseFail oneEntryState "t").2.2 0 rfl rfl⟩

/-! ### Claim C4 -/

/-- Arming a timer appends one armed entry for the key. -/
theorem armedFor_setConnectionTimer (s : ServiceState) (tenantId : String) :
    armedFor (setConnectionTimer s tenantId) tenantId =
      armedFor s tenantId ++ [(s.nextTimerId, tenantId)] := by
  simp [armedFor, setConnectionTimer, List.filter_append]

/-- C4, as stated, is false on the code: because eviction never calls
`clearTimeout` (it only deletes the bookkeeping map entry), a timer armed
before a shutdown survives it; after re-acquiring and then a cache-hit
acquire (which "resets" only the tracked timer), TWO idle timers for `"t"`
are armed at once — and both fire: the stale one (id 0) evicts the live
handle `1`, and the fresh one (id 2) fires afterwards on the emptied cache. -/
theorem C4_counterexample :
    armedFor staleTimerTrace "t" = [(0, "t"), (2, "t")] ∧
    (fireTimer envCached staleTimerTrace 0).connectionCache = [] ∧
    (fireTimer envCached staleTimerTrace 0).closeCalls = [0, 1] ∧
    (fireTimer envCached (fireTimer envCached staleTimerTrace 0) 2).armedTimers = [] :=
  ⟨rfl, rfl, rfl, rfl⟩

/-- C4 amended: a cache-hit acquire returns the cached handle without any
directory or connector invocation, clears the timer recorded in the
`connectionTimers` map, and arms a fresh one; when the entry's bookkeeping is
consistent (every armed timer for the key is the recorded one) this leaves
exactly one armed timer for the key.  The consistency premise can be broken
by shutdown/eviction, which never call `clearTimeout` — see the
counterexample. -/
theorem C4_hit_resets_tracked_timer (env : Env) (s : ServiceState) (tenantId : String)
    (handle : Nat)
    (hcache : env.cfg.cacheConnections = true)
    (hhit : mapGet s.connectionCache tenantId = some handle)
    (htrack : ∀ p ∈ s.armedTimers, p.2 = tenantId →
      some p.1 = mapGet s.connectionTimers tenantId) :
    (getTenantConnection env s tenantId).1 = .ok handle ∧
    (getTenantConnection env s tenantId).2.dirCalls = s.dirCalls ∧
    (getTenantConnection env s tenantId).2.connectorCalls = s.connectorCalls ∧
    armedFor (getTenantConnection env s tenantId).2 tenantId = [(s.nextTimerId, tenantId)] := by
  have hred : getTenantConnection env s tenantId = (.ok handle, resetConnectionTimer s tenantId) := by
    simp only [getTenantConnection, hcache, hhit]
  rw [hred]
  refine ⟨rfl, ?_, ?_, ?_⟩
  · unfold resetConnectionTimer
    split <;> rfl
  · unfold resetConnectionTimer
    split <;> rfl
  · unfold resetConnectionTimer
    rcases hT : mapGet s.connectionTimers tenantId with _ | t0
    · simp only [hT]
      rw [armedFor_setConnectionTimer]
      have h1 : armedFor s tenantId = [] := by
        rw [armedFor, List.filter_eq_nil_iff]
        intro p hp hpt
        have h2 := htrack p hp (by simpa using hpt)
        rw [hT] at h2
        exact Option.noConfusion h2
      rw [h1, List.nil_append]
    · simp only [hT]
      rw [armedFor_setConnectionTimer]
      have h1 : armedFor { s with armedTimers := armedRemove s.armedTimers t0 } tenantId = [] := by
        rw [armedFor, List.filter_eq_nil_iff]
        intro p hp hpt
        simp only [armedRemove, List.mem_filter] at hp
        obtain ⟨hpmem, hpne⟩ := hp
        have h2 := htrack p hpmem (by simpa using hpt)
        rw [hT] at h2
        have h3 : p.1 = t0 := Option.some.inj h2
        simp [h3] at hpne
      rw [h1, List.nil_append]

/-- Witness for C4: the state after one cached acquire of `"t"` (entry `0`,
tracked timer `0` armed); the hit returns handle `0`, makes no lookups, and
exactly the fresh timer `1` is armed for `"t"`. -/
theorem C4_hit_resets_tracked_timer_witness :
    (getTenantConnection envCached oneEntryState "t").1 = .ok 0 ∧
    (getTenantConnection envCached oneEntryState "t").2.dirCalls = oneEntryState.dirCalls ∧
    (getTenantConnection envCached oneEntryState "t").2.connectorCalls =
      oneEntryState.connectorCalls ∧
    armedFor (getTenantConnection envCached oneEntryState "t").2 "t" =
      [(oneEntryState.nextTimerId, "t")] :=
  C4_hit_resets_tracked_timer envCached oneEntryState "t" 0 rfl rfl (by decide)

/-! ### Claim C5 -/

/-- C5, as stated, is false on the code: once an entry is cached, neither
`getTenantConnection` (which returns on the cache hit before any directory
check) nor `getTenantContext` (which never checks `isActive` itself) rejects a
tenant whose directory row now has `isActive = false` — both succeed,
returning the cached handle, instead of failing with
`TenantInactiveException`. -/
theorem C5_counterexample :
    (getTenantConnection envCachedInactive oneEntryState "t").1 = .ok 0 ∧
    (getTenantContext envCachedInactive oneEntryState "t").1 =
      .ok { tenantId := "t", tenantInfo := { id := "t", isActive := false }, connection := 0 } :=
  ⟨rfl, rfl⟩

/-- C5 amended: whenever the call takes the miss path — caching disabled, or
no cache entry for the key — a directory row with `isActive = false` makes
both `acquire` and `acquireContext` fail with `TenantInactiveException`, and
the backend connector is never invoked; with a cache entry present the cached
handle is returned without re-checking `isActive`. -/
theorem C5_inactive_rejected_on_miss (env : Env) (s : ServiceState) (tenantId : String)
    (info : TenantConnectionInfo)
    (hmiss : env.cfg.cacheConnections = false ∨ mapGet s.connectionCache tenantId = none)
    (hdir : env.dir tenantId = .found info)
    (hinact : info.isActive = false) :
    (getTenantConnection env s tenantId).1 = .error (.tenantInactive tenantId) ∧
    (getTenantConnection env s tenantId).2.connectorCalls = s.connectorCalls ∧
    (getTenantContext env s tenantId).1 = .error (.tenantInactive tenantId) ∧
    (getTenantContext env s tenantId).2.connectorCalls = s.connectorCalls := by
  have hacq : ∀ s' : ServiceState,
      mapGet s'.connectionCache tenantId = mapGet s.connectionCache tenantId →
      getTenantConnection env s' tenantId =
        (.error (.tenantInactive tenantId), { s' with dirCalls := s'.dirCalls + 1 }) := by
    intro s' heq
    rcases hmiss with hoff | hnone
    · simp [getTenantConnection, hoff, getTenantInfo, hdir, hinact]
    · rw [hnone] at heq
      rcases hc : env.cfg.cacheConnections with _ | _ <;>
        simp [getTenantConnection, hc, heq, getTenantInfo, hdir, hinact]
  have h1 := hacq s rfl
  have h2 := hacq { s with dirCalls := s.dirCalls + 1 } rfl
  refine ⟨by rw [h1], by rw [h1], ?_, ?_⟩ <;>
    simp [getTenantContext, getTenantInfo, hdir, h2]

/-- Witness for C5: cold cache, tenant `"t"` inactive in the directory. -/
theorem C5_inactive_rejected_on_miss_witness :
    (getTenantConnection envCachedInactive initState "t").1 = .error (.tenantInactive "t") ∧
    (getTenantConnection envCachedInactive initState "t").2.connectorCalls = 0 ∧
    (getTenantContext envCachedInactive initState "t").1 = .error (.tenantInactive "t") ∧
    (getTenantContext envCachedInactive initState "t").2.connectorCalls = 0 :=
  C5_inactive_rejected_on_miss envCachedInactive initState "t" { id := "t", isActive := false }
    (Or.inr rfl) (by decide) rfl

/-! ### Claim C6 -/

/-- Keys absent from the prefix are looked up in the suffix. -/
theorem mapGet_append_notMem (pre m : List (String × Nat)) (k : String)
    (h : k ∉ mapKeys pre) : mapGet (pre ++ m) k = mapGet m k := by
  induction pre with
  | nil => rfl
  | cons p rest ih =>
    obtain ⟨k', v'⟩ := p
    rw [mapKeys_cons] at h
    simp only [List.mem_cons] at h
    push_neg at h
    simp only [List.cons_append, mapGet, if_neg (Ne.symm h.1)]
    exact ih h.2

/-- Deleting an absent key is the identity. -/
theorem mapDelete_notMem (m : List (String × Nat)) (k : String)
    (h : k ∉ mapKeys m) : mapDelete m k = m := by
  rw [mapDelete, List.filter_eq_self]
  intro p hp
  simp only [ne_eq, decide_eq_true_eq]
  intro hpk
  exact h (by rw [← hpk]; exact List.mem_map_of_mem _ hp)

/-- Deleting the unique occurrence of a key from the middle. -/
theorem mapDelete_middle (pre m' : List (String × Nat)) (k : String) (h : Nat)
    (hpre : k ∉ mapKeys pre) (hm : k ∉ mapKeys m') :
    mapDelete (pre ++ (k, h) :: m') k = pre ++ m' := by
  have hsplit : mapDelete (pre ++ (k, h) :: m') k =
      mapDelete pre k ++ mapDelete ((k, h) :: m') k := by
    simp [mapDelete, List.filter_append]
  have hmid : mapDelete ((k, h) :: m') k = mapDelete m' k := by
    simp [mapDelete, List.filter_cons]
  rw [hsplit, hmid, mapDelete_notMem pre k hpre, mapDelete_notMem m' k hm]

/-- `closeConnection` never touches the armed-timer set (no `clearTimeout`). -/
theorem closeConnection_armed (env : Env) (s : ServiceState) (tenantId : String) :
    (closeConnection env s tenantId).armedTimers = s.armedTimers := by
  unfold closeConnection
  rcases hg : mapGet s.connectionCache tenantId with _ | handle
  · rfl
  · rcases hf : env.closeFails handle with _ | _ <;> simp [hf]

/-- The close sweep of `closeAllConnections`, processed entry by entry: every
cached handle's close is invoked exactly once, entries whose close succeeds
are removed, entries whose close fails stay, and no armed timer changes. -/
theorem closeFold (env : Env) :
    ∀ (m pre : List (String × Nat)) (s : ServiceState),
    (mapKeys (pre ++ m)).Nodup →
    s.connectionCache = pre ++ m →
    (∀ p ∈ pre, env.closeFails p.2 = true) →
    ((mapKeys m).foldl (fun acc tenantId => closeConnection env acc tenantId) s).connectionCache
        = pre ++ m.filter (fun p => env.closeFails p.2) ∧
    ((mapKeys m).foldl (fun acc tenantId => closeConnection env acc tenantId) s).closeCalls
        = s.closeCalls ++ m.map (·.2) ∧
    ((mapKeys m).foldl (fun acc tenantId => closeConnection env acc tenantId) s).armedTimers
        = s.armedTimers := by
  intro m
  induction m with
  | nil =>
    intro pre s hnd hcache hpre
    refine ⟨?_, by simp [mapKeys], by simp [mapKeys]⟩
    simp only [mapKeys, List.map_nil, List.foldl_nil, List.filter_nil, List.append_nil] at hcache ⊢
    exact hcache
  | cons p m' ih =>
    obtain ⟨k, h⟩ := p
    intro pre s hnd hcache hpre
    have hkeys : mapKeys (pre ++ (k, h) :: m') = mapKeys pre ++ k :: mapKeys m' := by
      simp [mapKeys]
    rw [hkeys] at hnd
    have hkpre : k ∉ mapKeys pre := by
      intro hmem
      exact (List.disjoint_of_nodup_append hnd) hmem (List.mem_cons_self k _)
    have hkm : k ∉ mapKeys m' := by
      have := (List.nodup_append.mp hnd).2.1
      exact (List.nodup_cons.mp this).1
    have hget : mapGet s.connectionCache k = some h := by
      rw [hcache, mapGet_append_notMem pre _ k hkpre, mapGet_cons_self]
    have hfold : (mapKeys ((k, h) :: m')).foldl (fun acc tenantId => closeConnection env acc tenantId) s
        = (mapKeys m').foldl (fun acc tenantId => closeConnection env acc tenantId)
            (closeConnection env s k) := by
      simp [mapKeys]
    rcases hf : env.closeFails h with _ | _
    · -- close succeeds: the entry and its timer bookkeeping are removed
      have hs1 : closeConnection env s k =
          { s with
            closeCalls := s.closeCalls ++ [h]
            connectionCache := mapDelete s.connectionCache k
            connectionTimers := mapDelete s.connectionTimers k } := by
        simp only [closeConnection, hget, hf, Bool.false_eq_true, if_false]
      have hnd' : (mapKeys (pre ++ m')).Nodup := by
        have hsub : List.Sublist (mapKeys pre ++ mapKeys m') (mapKeys pre ++ k :: mapKeys m') :=
          List.Sublist.append_left (List.sublist_cons_self k (mapKeys m')) (mapKeys pre)
        have := hnd.sublist hsub
        simpa [mapKeys] using this
      have hcache' : (closeConnection env s k).connectionCache = pre ++ m' := by
        rw [hs1]
        show mapDelete s.connectionCache k = pre ++ m'
        rw [hcache]
        exact mapDelete_middle pre m' k h hkpre hkm
      obtain ⟨ha, hb, hc⟩ := ih pre (closeConnection env s k) hnd' hcache' hpre
      rw [hfold]
      refine ⟨?_, ?_, ?_⟩
      · rw [ha, List.filter_cons]
        simp [hf]
      · rw [hb, hs1]
        simp
      · rw [hc, closeConnection_armed]
    · -- close throws: only `closeCalls` grows, the entry stays
      have hs1 : closeConnection env s k = { s with closeCalls := s.closeCalls ++ [h] } := by
        simp only [closeConnection, hget, hf, if_true]
      have hnd' : (mapKeys ((pre ++ [(k, h)]) ++ m')).Nodup := by
        have : (pre ++ [(k, h)]) ++ m' = pre ++ (k, h) :: m' := by simp
        rw [this, hkeys]
        exact hnd
      have hcache' : (closeConnection env s k).connectionCache = (pre ++ [(k, h)]) ++ m' := by
        rw [hs1]
        show s.connectionCache = (pre ++ [(k, h)]) ++ m'
        rw [hcache]
        simp
      have hpre' : ∀ p ∈ pre ++ [(k, h)], env.closeFails p.2 = true := by
        intro p hp
        rcases List.mem_append.mp hp with hp1 | hp1
        · exact hpre p hp1
        · simp only [List.mem_singleton] at hp1
          rw [hp1]
          exact hf
      obtain ⟨ha, hb, hc⟩ := ih (pre ++ [(k, h)]) (closeConnection env s k) hnd' hcache' hpre'
      rw [hfold]
      refine ⟨?_, ?_, ?_⟩
      · rw [ha, List.filter_cons]
        simp [hf]
      · rw [hb, hs1]
        simp
      · rw [hc, closeConnection_armed]

/-- C6, as stated, is false on the code: after successful `acquire` on the
three distinct keys `t1`, `t2`, `t3`, a `shutdown` during which the close of
`t2`'s handle throws does invoke every handle's close exactly once, but the
entry whose close failed is not removed (its deletes were skipped), so
`stats()` reports count `1`, not `0`. -/
theorem C6_counterexample :
    threeKeyShutdown.closeCalls = [0, 1, 2] ∧
    getConnectionStats threeKeyShutdown = (1, ["t2"]) :=
  ⟨rfl, rfl⟩

/-- C6 amended: `shutdown` sweeps every cached entry, invoking each cached
handle's close exactly once (in cache order); entries whose close succeeds
are removed and entries whose close throws remain cached, so `stats()`
reports count `0` exactly when every close succeeded. -/
theorem C6_shutdown_closes_each_entry_once (env : Env) (s : ServiceState)
    (hnodup : (mapKeys s.connectionCache).Nodup) :
    (closeAllConnections env s).closeCalls = s.closeCalls ++ s.connectionCache.map (·.2) ∧
    (closeAllConnections env s).connectionCache =
      s.connectionCache.filter (fun p => env.closeFails p.2) ∧
    ((∀ p ∈ s.connectionCache, env.closeFails p.2 = false) →
      getConnectionStats (closeAllConnections env s) = (0, [])) := by
  have h := closeFold env s.connectionCache [] s (by simpa using hnodup) (by simp) (by simp)
  have hdef : closeAllConnections env s =
      (mapKeys s.connectionCache).foldl (fun acc tenantId => closeConnection env acc tenantId) s :=
    rfl
  refine ⟨by rw [hdef]; exact h.2.1, by rw [hdef]; simpa using h.1, fun hall => ?_⟩
  have hfil : s.connectionCache.filter (fun p => env.closeFails p.2) = [] := by
    rw [List.filter_eq_nil_iff]
    intro p hp
    simp [hall p hp]
  have hcache : (closeAllConnections env s).connectionCache = [] := by
    rw [hdef]
    rw [show ((mapKeys s.connectionCache).foldl
      (fun acc tenantId => closeConnection env acc tenantId) s).connectionCache =
      [] ++ s.connectionCache.filter (fun p => env.closeFails p.2) from h.1, hfil]
    rfl
  simp [getConnectionStats, hcache, mapKeys]

/-- Witness for C6: the three-key state under `envThree` but with every close
succeeding (`envCached`'s `closeFails`): all three closes happen once and the
cache drains to zero. -/
theorem C6_shutdown_closes_each_entry_once_witness :
    (closeAllConnections envCached threeKeyState).closeCalls =
      threeKeyState.closeCalls ++ threeKeyState.connectionCache.map (·.2) ∧
    getConnectionStats (closeAllConnections envCached threeKeyState) = (0, []) :=
  ⟨(C6_shutdown_closes_each_entry_once envCached threeKeyState (by decide)).1,
   (C6_shutdown_closes_each_entry_once envCached threeKeyState (by decide)).2.2 (by decide)⟩

/-! ### Claim C7 -/

/-- The close sweep never disarms a timer, whatever the list of keys. -/
theorem foldl_close_armed (env : Env) :
    ∀ (l : List String) (s : ServiceState),
    (l.foldl (fun acc tenantId => closeConnection env acc tenantId) s).armedTimers
      = s.armedTimers := by
  intro l
  induction l with
  | nil => intro s; rfl
  | cons k rest ih =>
    intro s
    rw [List.foldl_cons, ih (closeConnection env s k), closeConnection_armed]

/-- C7, as stated, is false on the code: `closeConnection` deletes the
`connectionTimers` bookkeeping entry but never calls `clearTimeout`, so after
a completed `shutdown` that removed the only entry, the idle timer armed for
`"t"` is still pending in the runtime — nothing was cancelled. -/
theorem C7_counterexample :
    shutdownTrace.connectionCache = [] ∧
    shutdownTrace.connectionTimers = [] ∧
    shutdownTrace.armedTimers = [(0, "t")] :=
  ⟨rfl, rfl, rfl⟩

/-- C7 amended: the `shutdown` sweep leaves every armed idle timer pending
(no `clearTimeout` anywhere on the close path); such a surviving timer later
fires, but when the cache no longer holds an entry for its key the fired
`closeConnection` is a no-op apart from the timer being spent.  (If the key
was re-acquired first, the stale timer instead evicts the fresh entry — see
the C4 analysis.) -/
theorem C7_shutdown_does_not_cancel_timers :
    (∀ (env : Env) (s : ServiceState),
      (closeAllConnections env s).armedTimers = s.armedTimers) ∧
    (∀ (env : Env) (s : ServiceState) (t : Nat) (tenantId : String),
      (s.armedTimers.find? (fun p => p.1 = t)).map (·.2) = some tenantId →
      mapGet s.connectionCache tenantId = none →
      fireTimer env s t = { s with armedTimers := armedRemove s.armedTimers t }) := by
  constructor
  · intro env s
    exact foldl_close_armed env (mapKeys s.connectionCache) s
  · intro env s t tenantId hfind hnone
    simp only [fireTimer, hfind, closeConnection, hnone]

/-- Witness for C7: the post-shutdown state with the surviving timer `0`;
firing it only spends the timer. -/
theorem C7_shutdown_does_not_cancel_timers_witness :
    (closeAllConnections envCached oneEntryState).armedTimers = oneEntryState.armedTimers ∧
    fireTimer envCached shutdownTrace 0 =
      { shutdownTrace with armedTimers := armedRemove shutdownTrace.armedTimers 0 } :=
  ⟨C7_shutdown_does_not_cancel_timers.1 envCached oneEntryState,
   C7_shutdown_does_not_cancel_timers.2 envCached shutdownTrace 0 "t" rfl rfl⟩

/-! ### Claim C8 -/

/-- `createTenantConnection` either fails before touching the state (bad
driver) or bumps only the connector-invocation counter. -/
theorem createTenantConnection_snd (env : Env) (s : ServiceState) (info : TenantConnectionInfo) :
    (createTenantConnection env s info).2 = s ∨
    (createTenantConnection env s info).2 = { s with connectorCalls := s.connectorCalls + 1 } := by
  unfold createTenantConnection
  split
  · rcases h : env.connectorFails s.connectorCalls with _ | msg <;> simp [h]
  · left
    rfl

/-- With caching disabled, `getTenantConnection` never touches the cache, the
timer bookkeeping, or the armed timers, on any path. -/
theorem getTenantConnection_nocache_state (env : Env) (s : ServiceState) (tenantId : String)
    (hoff : env.cfg.cacheConnections = false) :
    (getTenantConnection env s tenantId).2.connectionCache = s.connectionCache ∧
    (getTenantConnection env s tenantId).2.connectionTimers = s.connectionTimers ∧
    (getTenantConnection env s tenantId).2.armedTimers = s.armedTimers := by
  simp only [getTenantConnection, hoff]
  rcases hd : env.dir tenantId with info | _ | msg <;>
    simp only [getTenantInfo, hd]
  case found =>
    rcases hact : info.isActive with _ | _
    · simp
    · simp only [Bool.true_eq_false, if_false]
      rcases hcc : createTenantConnection env { s with dirCalls := s.dirCalls + 1 } info
        with ⟨r, s2⟩
      have hsnd := createTenantConnection_snd env { s with dirCalls := s.dirCalls + 1 } info
      rw [hcc] at hsnd
      dsimp only at hsnd
      rcases r with e | handle
      · rcases hsnd with h2 | h2 <;> rw [h2] <;> exact ⟨by trivial, by trivial, by trivial⟩
      · simp only [Bool.false_eq_true, if_false]
        rcases hsnd with h2 | h2 <;> rw [h2] <;> exact ⟨by trivial, by trivial, by trivial⟩
  case empty => exact ⟨trivial, trivial, trivial⟩
  case failure => exact ⟨trivial, trivial, trivial⟩

/-- C8: with caching disabled, every `acquire` bypasses the cache entirely:
no entry is ever stored and no timer armed (on any path), each sequential
`acquire` for the same key invokes the connector afresh (distinct handles
numbered by consecutive connector invocations), and starting from an empty
cache `stats()` reports zero entries throughout. -/
theorem C8_caching_disabled_bypass (env : Env) (s : ServiceState) (tenantId : String)
    (info : TenantConnectionInfo)
    (hoff : env.cfg.cacheConnections = false)
    (hdir : env.dir tenantId = .found info)
    (hact : info.isActive = true)
    (hdrv : env.cfg.driver = "mysql" ∨ env.cfg.driver = "postgresql" ∨ env.cfg.driver = "mongodb")
    (hcf0 : env.connectorFails s.connectorCalls = none)
    (hcf1 : env.connectorFails (s.connectorCalls + 1) = none) :
    (∀ (s' : ServiceState) (tenantId' : String),
      (getTenantConnection env s' tenantId').2.connectionCache = s'.connectionCache ∧
      (getTenantConnection env s' tenantId').2.connectionTimers = s'.connectionTimers ∧
      (getTenantConnection env s' tenantId').2.armedTimers = s'.armedTimers) ∧
    (getTenantConnection env s tenantId).1 = .ok s.connectorCalls ∧
    (getTenantConnection env (getTenantConnection env s tenantId).2 tenantId).1 =
      .ok (s.connectorCalls + 1) ∧
    (s.connectionCache = [] →
      getConnectionStats
        (getTenantConnection env (getTenantConnection env s tenantId).2 tenantId).2 = (0, [])) := by
  have hrun : ∀ s' : ServiceState, env.connectorFails s'.connectorCalls = none →
      getTenantConnection env s' tenantId =
        (.ok s'.connectorCalls,
          { s' with dirCalls := s'.dirCalls + 1, connectorCalls := s'.connectorCalls + 1 }) := by
    intro s' hcf
    simp only [getTenantConnection, hoff, getTenantInfo, hdir, hact, createTenantConnection,
      if_pos hdrv, hcf, Bool.true_eq_false, Bool.false_eq_true, if_false]
  have h1 := hrun s hcf0
  have h2 := hrun { s with dirCalls := s.dirCalls + 1, connectorCalls := s.connectorCalls + 1 }
    (by simpa using hcf1)
  refine ⟨fun s' tenantId' => getTenantConnection_nocache_state env s' tenantId' hoff,
    by rw [h1], ?_, ?_⟩
  · rw [h1, h2]
  · intro hempty
    rw [h1, h2]
    simp [getConnectionStats, hempty, mapKeys]

/-- Witness for C8: caching disabled over the one-tenant directory; two
sequential acquires of `"t"` from the empty state yield the distinct handles
`0` and `1` and the stats stay at zero. -/
theorem C8_caching_disabled_bypass_witness :
    (getTenantConnection envNoCache initState "t").2.connectionCache =
      initState.connectionCache ∧
    (getTenantConnection envNoCache initState "t").1 = .ok 0 ∧
    (getTenantConnection envNoCache (getTenantConnection envNoCache initState "t").2 "t").1 =
      .ok 1 ∧
    getConnectionStats
      (getTenantConnection envNoCache (getTenantConnection envNoCache initState "t").2 "t").2 =
      (0, []) :=
  ⟨((C8_caching_disabled_bypass envNoCache initState "t" { id := "t", isActive := true }
      rfl (by decide) rfl (Or.inl rfl) rfl rfl).1 initState "t").1,
   (C8_caching_disabled_bypass envNoCache initState "t" { id := "t", isActive := true }
      rfl (by decide) rfl (Or.inl rfl) rfl rfl).2.1,
   (C8_caching_disabled_bypass envNoCache initState "t" { id := "t", isActive := true }
      rfl (by decide) rfl (Or.inl rfl) rfl rfl).2.2.1,
   (C8_caching_disabled_bypass envNoCache initState "t" { id := "t", isActive := true }
      rfl (by decide) rfl (Or.inl rfl) rfl rfl).2.2.2 rfl⟩

/-! ### Claim C9 -/

/-- C9, as stated, is false on the code: with the configured driver outside
`{mysql, postgresql, mongodb}`, the `default` branch of
`createTenantConnection` throws a plain `Error("Unsupported driver: ...")`
which the surrounding `catch` wraps into `TenantConnectionException`
(`ConnectionFailed`) — not into the dedicated
`UnsupportedDatabaseDriverException`, which is declared in
`tenant.exceptions.ts` but never thrown on this path. -/
theorem C9_counterexample :
    (getTenantConnection envBadDriver initState "t").1 =
      .error (.tenantConnection "t" "Unsupported driver: sqlite") ∧
    (getTenantConnection envBadDriver initState "t").1 ≠
      .error (.unsupportedDatabaseDriver "sqlite") ∧
    (getTenantConnection envBadDriver initState "t").2.connectorCalls = 0 := by
  refine ⟨rfl, ?_, rfl⟩
  intro h
  rw [show (getTenantConnection envBadDriver initState "t").1 =
    Except.error (TenantError.tenantConnection "t" "Unsupported driver: sqlite") from rfl] at h
  injection h with h2
  exact TenantError.noConfusion h2

/-- C9 amended: an acquire under an unsupported driver kind fails per-call,
but with `ConnectionFailed` (`TenantConnectionException`) whose wrapped cause
message is `"Unsupported driver: <kind>"`; the backend connector is never
invoked for that call. -/
theorem C9_unsupported_driver_wrapped (env : Env) (s : ServiceState) (tenantId : String)
    (info : TenantConnectionInfo)
    (hmiss : env.cfg.cacheConnections = false ∨ mapGet s.connectionCache tenantId = none)
    (hdir : env.dir tenantId = .found info)
    (hact : info.isActive = true)
    (hdrv : ¬(env.cfg.driver = "mysql" ∨ env.cfg.driver = "postgresql" ∨
      env.cfg.driver = "mongodb")) :
    (getTenantConnection env s tenantId).1 =
      .error (.tenantConnection info.id ("Unsupported driver: " ++ env.cfg.driver)) ∧
    (getTenantConnection env s tenantId).2.connectorCalls = s.connectorCalls := by
  rcases hmiss with hoff | hnone
  · simp [getTenantConnection, hoff, getTenantInfo, hdir, hact, createTenantConnection,
      if_neg hdrv]
  · rcases hc : env.cfg.cacheConnections with _ | _ <;>
      simp [getTenantConnection, hc, hnone, getTenantInfo, hdir, hact, createTenantConnection,
        if_neg hdrv]

/-- Witness for C9: the `"sqlite"` driver over the one-tenant directory. -/
theorem C9_unsupported_driver_wrapped_witness :
    (getTenantConnection envBadDriver initState "t").1 =
      .error (.tenantConnection "t" ("Unsupported driver: " ++ envBadDriver.cfg.driver)) ∧
    (getTenantConnection envBadDriver initState "t").2.connectorCalls = 0 :=
  C9_unsupported_driver_wrapped envBadDriver initState "t" { id := "t", isActive := true }
    (Or.inr rfl) (by decide) rfl (by decide)

/-! ### Claim C10 -/

/-- C10: on the miss path, a directory lookup that returns no row and a
directory lookup that throws produce the exact same outcome — the call fails
with `TenantNotFoundException(tenantId)` (the thrown cause is swallowed by
`getTenantInfo`'s `catch`, which returns `null`), and in both cases the state
change is identical (only the lookup count grows). -/
theorem C10_directory_empty_or_failure_not_found (env : Env) (s : ServiceState)
    (tenantId : String)
    (hmiss : env.cfg.cacheConnections = false ∨ mapGet s.connectionCache tenantId = none) :
    (env.dir tenantId = .empty →
      getTenantConnection env s tenantId =
        (.error (.tenantNotFound tenantId), { s with dirCalls := s.dirCalls + 1 })) ∧
    (∀ msg, env.dir tenantId = .failure msg →
      getTenantConnection env s tenantId =
        (.error (.tenantNotFound tenantId), { s with dirCalls := s.dirCalls + 1 })) := by
  constructor
  · intro hd
    rcases hmiss with hoff | hnone
    · simp [getTenantConnection, hoff, getTenantInfo, hd]
    · rcases hc : env.cfg.cacheConnections with _ | _ <;>
        simp [getTenantConnection, hc, hnone, getTenantInfo, hd]
  · intro msg hd
    rcases hmiss with hoff | hnone
    · simp [getTenantConnection, hoff, getTenantInfo, hd]
    · rcases hc : env.cfg.cacheConnections with _ | _ <;>
        simp [getTenantConnection, hc, hnone, getTenantInfo, hd]

/-- Witness for C10: key `"u"` absent from the directory, and a directory
whose lookup throws; both acquires fail with `TenantNotFound` and the same
state. -/
theorem C10_directory_empty_or_failure_not_found_witness :
    getTenantConnection envCached initState "u" =
      (.error (.tenantNotFound "u"), { initState with dirCalls := 1 }) ∧
    getTenantConnection envDirThrows initState "t" =
      (.error (.tenantNotFound "t"), { initState with dirCalls := 1 }) :=
  ⟨(C10_directory_empty_or_failure_not_found envCached initState "u" (Or.inr rfl)).1 (by decide),
   (C10_directory_empty_or_failure_not_found envDirThrows initState "t" (Or.inr rfl)).2
     "central db down" rfl⟩
